import Mathlib

/-
Verification of the batumi four-channel LFO firmware core: a shallow
embedding of the UI state machine (ui.cc) and of the signal-routing
processor (processor.cc), followed by theorems about the embedded
operations.  Machine integers are modelled as Nat / Int with explicit
wrapping where the C types can wrap; interpolated lookup tables that live
in the generated resources file are abstracted as parameters, and the
claims conditioned on the looked-up value take that value as an argument.
-/

namespace Batumi

/-- Gesture thresholds in milliseconds (ui.cc). -/
def kLongPressDuration : Int := 500

def kVeryLongPressDuration : Int := 2000

def kClearSettingsLongPressDuration : Int := 4000

/-- Pot movement thresholds (ui.cc): 1 shl (16-8), (16-6), (16-5). -/
def kPotMoveThreshold : Int := 2 ^ (16 - 8)

def kPotMoveThresholdOnZoomMode : Int := 2 ^ (16 - 6)

def kPotMoveThresholdOnRandomWaveformSelectMode : Int := 2 ^ (16 - 5)

/-- Catch-up threshold (ui.cc): 1 shl 10. -/
def kCatchupThreshold : Int := 2 ^ 10

def UINT16_MAX : Nat := 65535

def INT16_MAX : Int := 32767

/-- FeatureMode (ui.h); FEAT_MODE_LAST is only the enum count 4. -/
inductive FeatureMode where
  | FREE
  | QUAD
  | PHASE
  | DIVIDE
  deriving DecidableEq, Repr

/-- UiMode (ui.h / ui.cc naming). -/
inductive UiMode where
  | SPLASH
  | NORMAL
  | ZOOM
  | RANDOM_WAVEFORM_SELECT
  | SPLASH_FOR_RANDOM_WAVEFORM_SELECT
  deriving DecidableEq, Repr

/-- WaveBank (ui.h); BANK_LAST is only the enum count. -/
inductive WaveBank where
  | CLASSIC
  | RANDOM
  deriving DecidableEq, Repr

/-- The Ui class state relevant to event handling (ui.h private fields).
All pot arrays hold uint16 values, modelled as Nat below 2^16. -/
structure UiState where
  mode : UiMode
  featMode : FeatureMode
  potValue : Fin 4 → Nat
  potFilteredValue : Fin 4 → Nat
  potCoarseValue : Fin 4 → Nat
  lastTouchedPot : Fin 4
  catchupState : Fin 4 → Bool
  bank : Fin 4 → WaveBank
  randomWaveformIndex : Fin 4 → Nat
  potFineValue : Fin 4 → Nat
  potLevelValue : Fin 4 → Nat
  potAttenValue : Fin 4 → Nat
  potPhaseValue : Fin 4 → Nat
  animationCounter : Int

/-- Ui::clearZoomSettings (ui.cc): fine to UINT16_MAX/2, phase, level and
atten to UINT16_MAX, for all four channels. -/
def clearZoomSettings (s : UiState) : UiState :=
  { s with
    potFineValue := fun _ => UINT16_MAX / 2
    potPhaseValue := fun _ => UINT16_MAX
    potLevelValue := fun _ => UINT16_MAX
    potAttenValue := fun _ => UINT16_MAX }

/-- Ui::clearAllHiddenSettings (ui.cc): random waveform index 0 and bank
CLASSIC for all channels, then clearZoomSettings. -/
def clearAllHiddenSettings (s : UiState) : UiState :=
  clearZoomSettings
    { s with
      randomWaveformIndex := fun _ => 0
      bank := fun _ => WaveBank.CLASSIC }

/-- The persisted byte image loaded by storage.ParsimoniousLoad: feature
mode, banks, random waveform indices and the four zoom pot arrays. -/
structure PersistedSettings where
  featMode : FeatureMode
  bank : Fin 4 → WaveBank
  randomWaveformIndex : Fin 4 → Nat
  potFineValue : Fin 4 → Nat
  potPhaseValue : Fin 4 → Nat
  potLevelValue : Fin 4 → Nat
  potAttenValue : Fin 4 → Nat

/-- Ui::Init (ui.cc): mode SPLASH; on load failure feat mode FREE plus
clearAllHiddenSettings (so bank CLASSIC, index 0, fine UINT16_MAX/2 and the
other zoom pots UINT16_MAX); pots synchronized to the ADC reading and
catch-up cleared.  The load outcome is passed as an Option. -/
def uiInit (load : Option PersistedSettings) (adcPot : Fin 4 → Nat) : UiState :=
  let settings : PersistedSettings :=
    match load with
    | some p => p
    | none =>
      { featMode := FeatureMode.FREE
        bank := fun _ => WaveBank.CLASSIC
        randomWaveformIndex := fun _ => 0
        potFineValue := fun _ => UINT16_MAX / 2
        potPhaseValue := fun _ => UINT16_MAX
        potLevelValue := fun _ => UINT16_MAX
        potAttenValue := fun _ => UINT16_MAX }
  { mode := UiMode.SPLASH
    featMode := settings.featMode
    potValue := adcPot
    potFilteredValue := adcPot
    potCoarseValue := adcPot
    lastTouchedPot := 0
    catchupState := fun _ => false
    bank := settings.bank
    randomWaveformIndex := settings.randomWaveformIndex
    potFineValue := settings.potFineValue
    potLevelValue := settings.potLevelValue
    potAttenValue := settings.potAttenValue
    potPhaseValue := settings.potPhaseValue
    animationCounter := 0 }

/-- The pot move threshold selected by Ui::Poll for the current UI mode. -/
def potMoveThreshold (m : UiMode) : Int :=
  match m with
  | UiMode.ZOOM => kPotMoveThresholdOnZoomMode
  | UiMode.RANDOM_WAVEFORM_SELECT => kPotMoveThresholdOnRandomWaveformSelectMode
  | _ => kPotMoveThreshold

/-- Result of one pot iteration of Ui::Poll. -/
structure PollPotResult where
  filteredValue : Nat
  committedValue : Nat
  emitted : Bool

/-- One pot iteration of Ui::Poll (ui.cc): IIR filter
value = (31*filtered + adc) shr 5, event emitted and value committed when
value moved at least the threshold from the committed value. -/
def pollPotStep (m : UiMode) (filtered committed adc : Nat) : PollPotResult :=
  if (((31 * filtered + adc) / 32 : Nat) : Int) ≥ (committed : Int) + potMoveThreshold m ∨
      (((31 * filtered + adc) / 32 : Nat) : Int) ≤ (committed : Int) - potMoveThreshold m then
    { filteredValue := (31 * filtered + adc) / 32
      committedValue := (31 * filtered + adc) / 32
      emitted := true }
  else
    { filteredValue := (31 * filtered + adc) / 32
      committedValue := committed
      emitted := false }

/-- Position computed by Ui::selectRandomWaveformFromPot from the table
of thresholds 9500, 26214, 42312, 60000; first index whose threshold
exceeds the pot value, else 4.  The CONSTRAIN(pos, 0, 4) in the source is
a no-op because pos is already in that range. -/
def waveformSelectPos (potVal : Int) : Nat :=
  if potVal < 9500 then 0
  else if potVal < 26214 then 1
  else if potVal < 42312 then 2
  else if potVal < 60000 then 3
  else 4

/-- Ui::selectRandomWaveformFromPot (ui.cc). -/
def selectRandomWaveformFromPot (s : UiState) (id : Fin 4) (potVal : Int) : UiState :=
  let pos := waveformSelectPos potVal
  if pos ≤ 0 then
    { s with
      randomWaveformIndex := Function.update s.randomWaveformIndex id 0
      bank := Function.update s.bank id WaveBank.CLASSIC }
  else
    { s with
      randomWaveformIndex := Function.update s.randomWaveformIndex id (pos - 1)
      bank := Function.update s.bank id WaveBank.RANDOM }

/-- Ui::OnPotChanged (ui.cc).  Pot events produced by Poll carry control
ids 0..3 and 16-bit data values; the uint16 stores truncate mod 2^16. -/
def onPotChanged (s : UiState) (controlId : Fin 4) (data : Nat) : UiState :=
  match s.mode with
  | UiMode.SPLASH => s
  | UiMode.SPLASH_FOR_RANDOM_WAVEFORM_SELECT => s
  | UiMode.ZOOM =>
    if controlId = 0 then
      { s with potFineValue :=
          Function.update s.potFineValue s.lastTouchedPot (data % 65536) }
    else if controlId = 1 then
      { s with potLevelValue :=
          Function.update s.potLevelValue s.lastTouchedPot (data % 65536) }
    else if controlId = 2 then
      { s with potAttenValue :=
          Function.update s.potAttenValue s.lastTouchedPot (data % 65536) }
    else
      { s with potPhaseValue :=
          Function.update s.potPhaseValue s.lastTouchedPot (data % 65536) }
  | UiMode.NORMAL =>
    let s1 := { s with lastTouchedPot := controlId }
    if s.catchupState controlId = false then
      { s1 with potCoarseValue :=
          Function.update s.potCoarseValue controlId (data % 65536) }
    else if |(data : Int) - (s.potCoarseValue controlId : Int)| < kCatchupThreshold then
      { s1 with
        potCoarseValue := Function.update s.potCoarseValue controlId (data % 65536)
        catchupState := Function.update s.catchupState controlId false }
    else s1
  | UiMode.RANDOM_WAVEFORM_SELECT => selectRandomWaveformFromPot s controlId (data : Int)

/-- Ui::gotoNormalModeWithCatchupAndSaving (ui.cc): channels whose
committed pot value is more than kCatchupThreshold away from the stored
coarse value enter catch-up; mode NORMAL; the Bool records that a
ParsimoniousSave happened. -/
def gotoNormalModeWithCatchupAndSaving (s : UiState) : UiState × Bool :=
  ({ s with
     catchupState := fun i =>
       if |(s.potValue i : Int) - (s.potCoarseValue i : Int)| > kCatchupThreshold then
         true
       else s.catchupState i
     mode := UiMode.NORMAL }, true)

def featureModeVal : FeatureMode → Nat
  | FeatureMode.FREE => 0
  | FeatureMode.QUAD => 1
  | FeatureMode.PHASE => 2
  | FeatureMode.DIVIDE => 3

def featureModeOfVal : Nat → FeatureMode
  | 0 => FeatureMode.FREE
  | 1 => FeatureMode.QUAD
  | 2 => FeatureMode.PHASE
  | _ => FeatureMode.DIVIDE

/-- feat_mode_ = (feat_mode_ + 1) % FEAT_MODE_LAST (ui.cc). -/
def nextFeatureMode (m : FeatureMode) : FeatureMode :=
  featureModeOfVal ((featureModeVal m + 1) % 4)

/-- Ui::OnSwitchReleased for SWITCH_SELECT (ui.cc); the other switch ids
fall through with no effect.  The Bool records whether a ParsimoniousSave
happened on this event. -/
def onSelectSwitchReleased (s : UiState) (data : Int) : UiState × Bool :=
  if data > kClearSettingsLongPressDuration then
    ({ clearAllHiddenSettings s with
       animationCounter := 0
       mode := UiMode.SPLASH }, true)
  else if data > kVeryLongPressDuration then
    if s.mode ≠ UiMode.RANDOM_WAVEFORM_SELECT then
      ({ s with
         mode := UiMode.SPLASH_FOR_RANDOM_WAVEFORM_SELECT
         animationCounter := 0 }, false)
    else (s, false)
  else if data > kLongPressDuration then
    if s.mode = UiMode.NORMAL then ({ s with mode := UiMode.ZOOM }, false)
    else if s.mode = UiMode.ZOOM then gotoNormalModeWithCatchupAndSaving s
    else (s, false)
  else
    match s.mode with
    | UiMode.SPLASH => (s, false)
    | UiMode.SPLASH_FOR_RANDOM_WAVEFORM_SELECT => (s, false)
    | UiMode.ZOOM => gotoNormalModeWithCatchupAndSaving s
    | UiMode.RANDOM_WAVEFORM_SELECT => gotoNormalModeWithCatchupAndSaving s
    | UiMode.NORMAL =>
      (clearZoomSettings { s with featMode := nextFeatureMode s.featMode }, true)

/-- A fully concrete Ui state used to instantiate theorems. -/
def mkUiState (m : UiMode) (f : FeatureMode) : UiState :=
  { mode := m
    featMode := f
    potValue := fun _ => 0
    potFilteredValue := fun _ => 0
    potCoarseValue := fun _ => 0
    lastTouchedPot := 0
    catchupState := fun _ => false
    bank := fun _ => WaveBank.CLASSIC
    randomWaveformIndex := fun _ => 0
    potFineValue := fun _ => 0
    potLevelValue := fun _ => 0
    potAttenValue := fun _ => 0
    potPhaseValue := fun _ => 0
    animationCounter := 0 }

def stNormalQuad : UiState := mkUiState UiMode.NORMAL FeatureMode.QUAD

def stAllMaxCoarse : UiState :=
  { mkUiState UiMode.NORMAL FeatureMode.PHASE with potCoarseValue := fun _ => 65535 }

def stCatch : UiState :=
  { mkUiState UiMode.NORMAL FeatureMode.FREE with
    catchupState := fun i => if i = 0 then true else false
    potCoarseValue := fun _ => 30000
    potValue := fun _ => 40000 }

def stZoomSample : UiState :=
  { mkUiState UiMode.ZOOM FeatureMode.FREE with lastTouchedPot := 2 }

/-- Reset input thresholds (processor.cc). -/
def kResetThresholdLow : Int := 10000

def kResetThresholdHigh : Int := 20000

/-- Per-channel reset-trigger detector state (processor.cc fields
reset_trigger_armed_, previous_reset_, reset_triggered_ plus the last
computed sub-sample numerator and divisor).  The source computes
reset_subsample_ = dist_to_trig * 32 / dist_to_next; we record numerator
and divisor separately because the division is the subject of a claim. -/
structure ResetState where
  armed : Bool
  prevReset : Int
  triggered : Bool
  subsampleNum : Int
  subsampleDen : Int

/-- The per-channel reset-trigger detection block run for every channel
on every Processor::Process tick (processor.cc): arm below the low
threshold, trigger above the high threshold while armed, record the
sub-sample interpolation operands, then remember the sample. -/
def resetDetectStep (s : ResetState) (reset : Int) : ResetState :=
  if reset > kResetThresholdHigh ∧
      (if reset < kResetThresholdLow then true else s.armed) = true then
    { armed := if reset < kResetThresholdLow then true else s.armed
      prevReset := reset
      triggered := true
      subsampleNum := (kResetThresholdHigh - s.prevReset) * 32
      subsampleDen := reset - s.prevReset }
  else
    { armed := if reset < kResetThresholdLow then true else s.armed
      prevReset := reset
      triggered := false
      subsampleNum := s.subsampleNum
      subsampleDen := s.subsampleDen }

/-- Iterated reset detection with no disarming between ticks: this is what
channels 1 and 2 undergo in Quad, Phase and Divide mode, where no code
path clears reset_trigger_armed_ after a trigger (SetFrequency only runs
for channel 0, and only channel 3 is explicitly disarmed). -/
def resetDetectRun (s : ResetState) : List Int → ResetState
  | [] => s
  | r :: rs => resetDetectRun (resetDetectStep s r) rs

/-- One tick of the reset handling a channel receives in Free mode (and
that channel 0 receives in the other modes): detection followed by
SetFrequency, which clears the arm flag whenever the trigger fired. -/
def freeModeTick (s : ResetState) (reset : Int) : ResetState :=
  if (resetDetectStep s reset).triggered then
    { resetDetectStep s reset with armed := false }
  else resetDetectStep s reset

/-- Channel-3 slice of Quad-mode Processor::Process state: the reset
detector plus the global waveform_offset_ counter. -/
structure QuadCh3State where
  reset : ResetState
  waveformOffset : Int

/-- One Quad-mode tick as seen by channel 3 (processor.cc): run the reset
detector, then, if the trigger fired, increment waveform_offset_ and clear
the channel-3 arm flag. -/
def quadTickCh3 (s : QuadCh3State) (reset : Int) : QuadCh3State :=
  if (resetDetectStep s.reset reset).triggered then
    { reset := { resetDetectStep s.reset reset with armed := false }
      waveformOffset := s.waveformOffset + 1 }
  else
    { reset := resetDetectStep s.reset reset
      waveformOffset := s.waveformOffset }

def quadTicksCh3 (s : QuadCh3State) : List Int → QuadCh3State
  | [] => s
  | r :: rs => quadTicksCh3 (quadTickCh3 s r) rs

/-- The fine scaling shared by the divider conversions (processor.cc):
fine = (5 * (fine + INT16_MAX / 5)) shr 16, an arithmetic shift, hence
floor division. -/
def scaledFine (fine : Int) : Int :=
  Int.fdiv (5 * (fine + INT16_MAX / 5)) 65536

/-- Two's-complement wrap to the int8 range, for the int8_t div variable. -/
def int8wrap (x : Int) : Int :=
  (x + 128) % 256 - 128

/-- CONSTRAIN(var, lo, hi) from stmlib: clamp to the closed interval. -/
def constrainI (x lo hi : Int) : Int :=
  if x < lo then lo else if x > hi then hi else x

/-- The fine-adjustment and zero-skip chain of AdcValuesToDividerMultiplier
(processor.cc), applied to the int8 value looked up in
lut_scale_divide_multiply and the already-scaled fine term. -/
def dividerMultiplierAdjust (tableVal fine : Int) : Int :=
  if fine > 1 then
    let d := int8wrap (tableVal - fine)
    if d = 0 then -2 else if d = -1 then -3 else d
  else if fine = 1 then
    let d := int8wrap (tableVal - fine)
    if d = 0 then -2 else d
  else if fine < -1 then
    let d := int8wrap (tableVal - fine)
    if d = 0 then 2 else d
  else if fine = -1 then
    int8wrap (tableVal - fine)
  else tableVal

def dividerMultiplierPreClamp (tableVal fineRaw : Int) : Int :=
  dividerMultiplierAdjust tableVal (scaledFine fineRaw)

/-- AdcValuesToDividerMultiplier (processor.cc), parameterized by the
value looked up in lut_scale_divide_multiply (the table lives in the
generated resources file, outside this repository slice; the claims are
stated in terms of the looked-up value). -/
def adcValuesToDividerMultiplier (tableVal fineRaw : Int) : Int :=
  let d := dividerMultiplierPreClamp tableVal fineRaw
  if d ≥ -1 then constrainI d 1 64 else constrainI d (-64) (-2)

/-- AdcValuesToPhase (processor.cc), parameterized by the Interpolate88
lookup into lut_scale_phase.  The uint16 pot is replaced by 65536 - pot,
which wraps to 0 at pot = 0; fine / 8 is C truncating division. -/
def adcValuesToPhase (interp : Int → Nat) (pot : Nat) (fine : Int) (cv : Int) : Nat :=
  let pot1 : Nat := (65536 - pot) % 65536
  let ctrl : Int := (pot1 : Int) + cv + fine / 8
  interp (constrainI ctrl 0 (UINT16_MAX : Int))

/-- Configuration applied to a linked channel. -/
structure LinkedPhaseConfig where
  linkedToMaster : Bool
  initialPhase : Nat

/-- The Phase-mode per-channel setup of Processor::Process (processor.cc)
for channels i = 1..3: when the coarse pots of channels 1..3 all exceed
UINT16_MAX - 256, link to channel 0 with initial phase
(kNumChannels - i) * (UINT16_MAX shr 2); otherwise link and set the phase
through AdcValuesToPhase with the attenuated filtered CV. -/
def phaseModeLinkedConfig (interp : Int → Nat) (s : UiState)
    (filteredCv : Fin 4 → Int) (i : Fin 4) : LinkedPhaseConfig :=
  if s.potCoarseValue 1 > UINT16_MAX - 256 ∧
      s.potCoarseValue 2 > UINT16_MAX - 256 ∧
      s.potCoarseValue 3 > UINT16_MAX - 256 then
    { linkedToMaster := true
      initialPhase := (4 - i.val) * (UINT16_MAX / 2 ^ 2) }
  else
    { linkedToMaster := true
      initialPhase :=
        adcValuesToPhase interp (s.potCoarseValue i)
          ((s.potFineValue i : Int) - 32768)
          (Int.fdiv (filteredCv i * (s.potAttenValue i : Int)) 65536) }

/-- The gain accumulated by the Quad-mode output loop of
Processor::Process when it reaches channel i: the loop runs i = 3 down to
0 and adds each channel's level. -/
def quadAccumGain (level : Fin 4 → Nat) (i : Fin 4) : Nat :=
  if i.val = 3 then level 3
  else if i.val = 2 then level 2 + level 3
  else if i.val = 1 then level 1 + (level 2 + level 3)
  else level 0 + (level 1 + (level 2 + level 3))

/-- The Quad-mode normalization denominator at channel i (processor.cc):
g = gain < UINT16_MAX ? UINT16_MAX : gain. -/
def quadDenominatorAt (level : Fin 4 → Nat) (i : Fin 4) : Int :=
  if (quadAccumGain level i : Int) < (UINT16_MAX : Int) then (UINT16_MAX : Int)
  else (quadAccumGain level i : Int)

/-- The Quad-mode DAC sample (processor.cc): ((sum shl 13) / g) shl 3,
with C truncating division by the clamped gain. -/
def quadDacSample (sum denom : Int) : Int :=
  (sum * 2 ^ 13 / denom) * 2 ^ 3

/-- Concrete reset-detector states used to instantiate theorems. -/
def resetCh1Start : ResetState :=
  { armed := false, prevReset := 0, triggered := false
    subsampleNum := 0, subsampleDen := 32 }

def resetArmedAt5000 : ResetState :=
  { armed := true, prevReset := 5000, triggered := false
    subsampleNum := 0, subsampleDen := 32 }

def quadCh3Start : QuadCh3State :=
  { reset := resetArmedAt5000, waveformOffset := 0 }

lemma constrainI_bounds (x lo hi : Int) (h : lo ≤ hi) :
    lo ≤ constrainI x lo hi ∧ constrainI x lo hi ≤ hi := by
  unfold constrainI
  split_ifs <;> omega

/-- C3: AdcValuesToDividerMultiplier never returns 0 or -1: with a table
lookup of 2 and scaled fine 2 the result is -2; lookup 1 with fine 1 gives
-2; lookup 1 with fine 2 gives -3; lookup -2 with fine -2 gives 2; and the
final result is clamped to the interval 1..64 on the branch where the
adjusted value is at least -1, and to -64..-2 otherwise. -/
theorem claim3_divider_multiplier_skips_degenerate :
    (∀ t f : Int, adcValuesToDividerMultiplier t f ≠ 0 ∧
        adcValuesToDividerMultiplier t f ≠ -1) ∧
    (∀ f : Int, scaledFine f = 2 → adcValuesToDividerMultiplier 2 f = -2) ∧
    (∀ f : Int, scaledFine f = 1 → adcValuesToDividerMultiplier 1 f = -2) ∧
    (∀ f : Int, scaledFine f = 2 → adcValuesToDividerMultiplier 1 f = -3) ∧
    (∀ f : Int, scaledFine f = -2 → adcValuesToDividerMultiplier (-2) f = 2) ∧
    (∀ t f : Int,
      (dividerMultiplierPreClamp t f ≥ -1 →
        1 ≤ adcValuesToDividerMultiplier t f ∧
          adcValuesToDividerMultiplier t f ≤ 64) ∧
      (dividerMultiplierPreClamp t f < -1 →
        -64 ≤ adcValuesToDividerMultiplier t f ∧
          adcValuesToDividerMultiplier t f ≤ -2)) := by
  refine ⟨?_, ?_, ?_, ?_, ?_, ?_⟩
  · intro t f
    unfold adcValuesToDividerMultiplier
    by_cases h : dividerMultiplierPreClamp t f ≥ -1
    · rw [if_pos h]
      have hb := constrainI_bounds (dividerMultiplierPreClamp t f) 1 64 (by omega)
      omega
    · rw [if_neg h]
      have hb := constrainI_bounds (dividerMultiplierPreClamp t f) (-64) (-2) (by omega)
      omega
  · intro f h
    simp only [adcValuesToDividerMultiplier, dividerMultiplierPreClamp, h]
    decide
  · intro f h
    simp only [adcValuesToDividerMultiplier, dividerMultiplierPreClamp, h]
    decide
  · intro f h
    simp only [adcValuesToDividerMultiplier, dividerMultiplierPreClamp, h]
    decide
  · intro f h
    simp only [adcValuesToDividerMultiplier, dividerMultiplierPreClamp, h]
    decide
  · intro t f
    constructor
    · intro h
      unfold adcValuesToDividerMultiplier
      rw [if_pos h]
      exact constrainI_bounds _ 1 64 (by omega)
    · intro h
      unfold adcValuesToDividerMultiplier
      rw [if_neg (by omega)]
      exact constrainI_bounds _ (-64) (-2) (by omega)

theorem claim3_divider_multiplier_skips_degenerate_witness :
    adcValuesToDividerMultiplier 2 20000 = -2 ∧
    adcValuesToDividerMultiplier 1 10000 = -2 ∧
    adcValuesToDividerMultiplier 1 20000 = -3 ∧
    adcValuesToDividerMultiplier (-2) (-20000) = 2 :=
  ⟨claim3_divider_multiplier_skips_degenerate.2.1 20000 (by decide),
   claim3_divider_multiplier_skips_degenerate.2.2.1 10000 (by decide),
   claim3_divider_multiplier_skips_degenerate.2.2.2.1 20000 (by decide),
   claim3_divider_multiplier_skips_degenerate.2.2.2.2.1 (-20000) (by decide)⟩

/-- C4: on each Ui::Poll pot iteration a pot-changed event is emitted if
and only if the new IIR-filtered value (31/32 old, 1/32 new) differs from
the committed value by at least the active mode threshold (256 in Normal,
1024 in Zoom, 2048 in Random-Waveform-Select), and when emitted the
committed value becomes exactly the filtered value. -/
theorem claim4_pot_event_iff_threshold (m : UiMode) (filtered committed adc : Nat) :
    potMoveThreshold UiMode.NORMAL = 256 ∧
    potMoveThreshold UiMode.ZOOM = 1024 ∧
    potMoveThreshold UiMode.RANDOM_WAVEFORM_SELECT = 2048 ∧
    (pollPotStep m filtered committed adc).filteredValue =
      (31 * filtered + adc) / 32 ∧
    ((pollPotStep m filtered committed adc).emitted = true ↔
      |(((pollPotStep m filtered committed adc).filteredValue : Int)) -
          (committed : Int)| ≥ potMoveThreshold m) ∧
    ((pollPotStep m filtered committed adc).emitted = true →
      (pollPotStep m filtered committed adc).committedValue =
        (pollPotStep m filtered committed adc).filteredValue) ∧
    ((pollPotStep m filtered committed adc).emitted = false →
      (pollPotStep m filtered committed adc).committedValue = committed) := by
  refine ⟨by decide, by decide, by decide, ?_, ?_, ?_, ?_⟩
  · unfold pollPotStep
    split_ifs <;> rfl
  · unfold pollPotStep
    split_ifs with h
    · simp only [eq_self_iff_true, true_iff]
      rw [ge_iff_le, le_abs]
      rcases h with h | h
      · left; omega
      · right; omega
    · simp only [Bool.false_eq_true, false_iff, ge_iff_le, not_le]
      rw [abs_lt]
      push_neg at h
      omega
  · unfold pollPotStep
    split_ifs with h
    · intro _; rfl
    · intro hfalse; exact absurd hfalse (by simp)
  · unfold pollPotStep
    split_ifs with h
    · intro hfalse; exact absurd hfalse (by simp)
    · intro _; rfl

/-- C9: the Quad-mode normalization denominator at every channel equals
the accumulated gain sum floor-clamped to full scale 65535, hence is at
least full scale and never zero, even when every level is zero. -/
theorem claim9_quad_denominator_clamped (level : Fin 4 → Nat) (i : Fin 4) :
    quadDenominatorAt level i = max (quadAccumGain level i : Int) (UINT16_MAX : Int) ∧
    (UINT16_MAX : Int) ≤ quadDenominatorAt level i ∧
    quadDenominatorAt level i ≠ 0 ∧
    quadDenominatorAt (fun _ => 0) i = (UINT16_MAX : Int) := by
  have h0 : quadAccumGain (fun _ => 0) i = 0 := by
    unfold quadAccumGain
    split_ifs <;> rfl
  refine ⟨?_, ?_, ?_, ?_⟩
  · unfold quadDenominatorAt UINT16_MAX
    split_ifs with h <;> omega
  · unfold quadDenominatorAt UINT16_MAX
    split_ifs with h <;> omega
  · unfold quadDenominatorAt UINT16_MAX
    split_ifs with h <;> omega
  · unfold quadDenominatorAt
    rw [h0]
    norm_num [UINT16_MAX]

lemma quadTicksCh3_stay_disarmed (rs : List Int) :
    ∀ s : QuadCh3State, s.reset.armed = false →
      (∀ x ∈ rs, kResetThresholdLow ≤ x) →
      (quadTicksCh3 s rs).waveformOffset = s.waveformOffset ∧
      (quadTicksCh3 s rs).reset.armed = false := by
  induction rs with
  | nil => exact fun s h _ => ⟨rfl, h⟩
  | cons r rs ih =>
    intro s h hall
    have hr : kResetThresholdLow ≤ r := hall r (by simp)
    have hnotlow : ¬ (r < kResetThresholdLow) := by omega
    have hstep : quadTickCh3 s r =
        { reset := resetDetectStep s.reset r, waveformOffset := s.waveformOffset } := by
      unfold quadTickCh3 resetDetectStep
      simp [hnotlow, h]
    have harm : (resetDetectStep s.reset r).armed = false := by
      unfold resetDetectStep
      simp [hnotlow, h]
    have h2 := ih (quadTickCh3 s r) (by rw [hstep]; exact harm)
      (fun x hx => hall x (by simp [hx]))
    unfold quadTicksCh3
    refine ⟨h2.1.trans ?_, h2.2⟩
    rw [hstep]

/-- C7: in Quad mode a reset trigger on channel 3 (reset above the high
threshold while armed) increments the global waveform offset by exactly 1
and clears the channel-3 arm flag, and as long as the reset input stays at
or above the low threshold the channel is never re-armed and the offset is
never incremented again by channel 3. -/
theorem claim7_quad_reset3_waveform_offset (s : QuadCh3State) (r : Int)
    (harm : s.reset.armed = true) (hr : r > kResetThresholdHigh) :
    (quadTickCh3 s r).waveformOffset = s.waveformOffset + 1 ∧
    (quadTickCh3 s r).reset.armed = false ∧
    ∀ rs : List Int, (∀ x ∈ rs, kResetThresholdLow ≤ x) →
      (quadTicksCh3 (quadTickCh3 s r) rs).waveformOffset = s.waveformOffset + 1 ∧
      (quadTicksCh3 (quadTickCh3 s r) rs).reset.armed = false := by
  have hnotlow : ¬ (r < kResetThresholdLow) := by
    unfold kResetThresholdLow
    unfold kResetThresholdHigh at hr
    omega
  have hstep : (quadTickCh3 s r).waveformOffset = s.waveformOffset + 1 ∧
      (quadTickCh3 s r).reset.armed = false := by
    unfold quadTickCh3 resetDetectStep
    simp [hnotlow, harm, hr]
  refine ⟨hstep.1, hstep.2, fun rs hall => ?_⟩
  have h2 := quadTicksCh3_stay_disarmed rs (quadTickCh3 s r) hstep.2 hall
  exact ⟨h2.1.trans hstep.1, h2.2⟩

theorem claim7_quad_reset3_waveform_offset_witness :
    (quadTicksCh3 (quadTickCh3 quadCh3Start 25000) [25000, 25000, 10000]).waveformOffset =
      quadCh3Start.waveformOffset + 1 ∧
    (quadTicksCh3 (quadTickCh3 quadCh3Start 25000) [25000, 25000, 10000]).reset.armed =
      false :=
  (claim7_quad_reset3_waveform_offset quadCh3Start 25000 rfl (by decide)).2.2
    [25000, 25000, 10000] (by decide)

/-- C8: when loading the persisted settings fails at Init, the system
applies the hard-coded defaults (feature mode Free, bank Classic and
random waveform index 0 everywhere, fine pots at mid scale 32767 and
phase, level and atten pots at full scale 65535), synchronizes the pots to
the ADC readings, and proceeds into the Splash state; the total function
uiInit has no failure path. -/
theorem claim8_init_defaults_on_load_failure (adcPot : Fin 4 → Nat) :
    (uiInit none adcPot).featMode = FeatureMode.FREE ∧
    (uiInit none adcPot).mode = UiMode.SPLASH ∧
    ∀ i : Fin 4,
      (uiInit none adcPot).bank i = WaveBank.CLASSIC ∧
      (uiInit none adcPot).randomWaveformIndex i = 0 ∧
      (uiInit none adcPot).potFineValue i = 32767 ∧
      (uiInit none adcPot).potPhaseValue i = 65535 ∧
      (uiInit none adcPot).potLevelValue i = 65535 ∧
      (uiInit none adcPot).potAttenValue i = 65535 ∧
      (uiInit none adcPot).potValue i = adcPot i ∧
      (uiInit none adcPot).potFilteredValue i = adcPot i ∧
      (uiInit none adcPot).potCoarseValue i = adcPot i ∧
      (uiInit none adcPot).catchupState i = false :=
  ⟨rfl, rfl, fun _ => ⟨rfl, rfl, rfl, rfl, rfl, rfl, rfl, rfl, rfl, rfl⟩⟩

/-- C6 counterexample: in Quad (or Phase or Divide) mode nothing clears
the arm flag of channel 1 after a trigger, so with the reset input held at
25000 after arming at 5000, a second trigger fires on the next tick with
divisor currentSample - previousSample equal to 0. -/
theorem claim6_counterexample :
    (resetDetectRun resetCh1Start [5000, 25000, 25000]).triggered = true ∧
    (resetDetectRun resetCh1Start [5000, 25000, 25000]).subsampleDen = 0 := by
  decide

/-- C6 (amended): the sub-sample divisor is positive on any trigger tick
whose previous reset sample was at most the high threshold, and the
Free-mode tick (detection followed by SetFrequency, which disarms on
trigger) preserves the invariant that an armed channel's previous sample
is at most the high threshold; hence in Free mode, and for channel 0 in
every mode, the sub-sample division never divides by zero.  For channels
1 and 2 in Quad, Phase and Divide mode the claim fails (see the
counterexample). -/
theorem claim6_subsample_divisor_positive (s : ResetState) (reset : Int)
    (hInv : s.armed = true → s.prevReset ≤ kResetThresholdHigh) :
    ((resetDetectStep s reset).triggered = true →
      0 < (resetDetectStep s reset).subsampleDen) ∧
    ((freeModeTick s reset).armed = true →
      (freeModeTick s reset).prevReset ≤ kResetThresholdHigh) := by
  constructor
  · intro ht
    unfold resetDetectStep at ht ⊢
    by_cases hc : reset > kResetThresholdHigh ∧
        (if reset < kResetThresholdLow then true else s.armed) = true
    · rw [if_pos hc] at ht ⊢
      show 0 < reset - s.prevReset
      have harm : s.armed = true := by
        by_cases hlow : reset < kResetThresholdLow
        · exfalso
          rcases hc with ⟨hgt, _⟩
          simp only [kResetThresholdLow, kResetThresholdHigh] at hlow hgt
          omega
        · have h2 := hc.2
          rwa [if_neg hlow] at h2
      have hprev := hInv harm
      have hgt := hc.1
      simp only [kResetThresholdHigh] at hprev hgt
      omega
    · rw [if_neg hc] at ht
      simp at ht
  · intro ha
    unfold freeModeTick resetDetectStep at ha ⊢
    by_cases hc : reset > kResetThresholdHigh ∧
        (if reset < kResetThresholdLow then true else s.armed) = true
    · rw [if_pos hc] at ha
      simp at ha
    · rw [if_neg hc] at ha ⊢
      replace ha : (if reset < kResetThresholdLow then true else s.armed) = true := ha
      show reset ≤ kResetThresholdHigh
      by_cases hlow : reset < kResetThresholdLow
      · simp only [kResetThresholdLow, kResetThresholdHigh] at hlow ⊢
        omega
      · rw [if_neg hlow] at ha
        have hng : ¬ reset > kResetThresholdHigh := by
          intro hgt
          exact hc ⟨hgt, by rw [if_neg hlow]; exact ha⟩
        simp only [kResetThresholdHigh] at hng ⊢
        omega

theorem claim6_subsample_divisor_positive_witness :
    0 < (resetDetectStep resetArmedAt5000 25000).subsampleDen :=
  (claim6_subsample_divisor_positive resetArmedAt5000 25000 (fun _ => by decide)).1
    (by decide)

/-- C1 counterexample: from Normal with feature mode Quad, a SELECT
release with duration 4001 ms (above the clear-settings threshold) leaves
the feature mode at Quad; the claim says it is reset to Free. -/
theorem claim1_counterexample :
    stNormalQuad.mode = UiMode.NORMAL ∧
    (4001 : Int) > kClearSettingsLongPressDuration ∧
    (onSelectSwitchReleased stNormalQuad 4001).1.featMode ≠ FeatureMode.FREE := by
  refine ⟨rfl, by decide, ?_⟩
  decide

/-- C1 (amended): from Normal, a SELECT release whose duration exceeds
the clear-settings threshold resets every channel's bank,
random-waveform-index and zoom (fine, phase, level, atten) settings to
their defaults, persists the settings, and returns the UI to Splash; the
feature mode is left unchanged (it is not reset to Free). -/
theorem claim1_clear_settings (s : UiState) (data : Int)
    (hm : s.mode = UiMode.NORMAL) (hd : data > kClearSettingsLongPressDuration) :
    (onSelectSwitchReleased s data).1.mode = UiMode.SPLASH ∧
    (onSelectSwitchReleased s data).2 = true ∧
    (onSelectSwitchReleased s data).1.featMode = s.featMode ∧
    ∀ i : Fin 4,
      (onSelectSwitchReleased s data).1.bank i = WaveBank.CLASSIC ∧
      (onSelectSwitchReleased s data).1.randomWaveformIndex i = 0 ∧
      (onSelectSwitchReleased s data).1.potFineValue i = 32767 ∧
      (onSelectSwitchReleased s data).1.potPhaseValue i = 65535 ∧
      (onSelectSwitchReleased s data).1.potLevelValue i = 65535 ∧
      (onSelectSwitchReleased s data).1.potAttenValue i = 65535 := by
  unfold onSelectSwitchReleased
  rw [if_pos hd]
  exact ⟨rfl, rfl, rfl, fun _ => ⟨rfl, rfl, rfl, rfl, rfl, rfl⟩⟩

theorem claim1_clear_settings_witness :
    (onSelectSwitchReleased stNormalQuad 4001).1.mode = UiMode.SPLASH ∧
    (onSelectSwitchReleased stNormalQuad 4001).2 = true ∧
    (onSelectSwitchReleased stNormalQuad 4001).1.featMode = stNormalQuad.featMode ∧
    ∀ i : Fin 4,
      (onSelectSwitchReleased stNormalQuad 4001).1.bank i = WaveBank.CLASSIC ∧
      (onSelectSwitchReleased stNormalQuad 4001).1.randomWaveformIndex i = 0 ∧
      (onSelectSwitchReleased stNormalQuad 4001).1.potFineValue i = 32767 ∧
      (onSelectSwitchReleased stNormalQuad 4001).1.potPhaseValue i = 65535 ∧
      (onSelectSwitchReleased stNormalQuad 4001).1.potLevelValue i = 65535 ∧
      (onSelectSwitchReleased stNormalQuad 4001).1.potAttenValue i = 65535 :=
  claim1_clear_settings stNormalQuad 4001 rfl (by decide)

/-- C2 counterexample: with the coarse pots of channels 1..3 at the
maximum 65535 the quadrature branch is taken, but channel 1's initial
phase is 3 * 16383 = 49149, not 3 * 16384 = 49152 as the claim states:
the source multiplies by UINT16_MAX shr 2 = 16383. -/
theorem claim2_counterexample :
    stAllMaxCoarse.potCoarseValue 1 = 65535 ∧
    stAllMaxCoarse.potCoarseValue 2 = 65535 ∧
    stAllMaxCoarse.potCoarseValue 3 = 65535 ∧
    (phaseModeLinkedConfig (fun _ => 0) stAllMaxCoarse (fun _ => 0) 1).linkedToMaster =
      true ∧
    (phaseModeLinkedConfig (fun _ => 0) stAllMaxCoarse (fun _ => 0) 1).initialPhase ≠
      3 * 16384 := by
  refine ⟨rfl, rfl, rfl, ?_, ?_⟩ <;> decide

/-- C2 (amended): in Phase mode, when the coarse pot values of channels
1, 2 and 3 all exceed 65535 - 256, each channel i in 1..3 is linked to
channel 0 and its initial phase is set to exactly (4 - i) * 16383, which
is (4 - i) * (65535 shr 2). -/
theorem claim2_phase_quadrature (interp : Int → Nat) (s : UiState)
    (filteredCv : Fin 4 → Int) (i : Fin 4) (hi : 1 ≤ i.val)
    (h1 : s.potCoarseValue 1 > UINT16_MAX - 256)
    (h2 : s.potCoarseValue 2 > UINT16_MAX - 256)
    (h3 : s.potCoarseValue 3 > UINT16_MAX - 256) :
    (phaseModeLinkedConfig interp s filteredCv i).linkedToMaster = true ∧
    (phaseModeLinkedConfig interp s filteredCv i).initialPhase = (4 - i.val) * 16383 := by
  unfold phaseModeLinkedConfig
  rw [if_pos ⟨h1, h2, h3⟩]
  exact ⟨rfl, rfl⟩

theorem claim2_phase_quadrature_witness :
    (phaseModeLinkedConfig (fun _ => 0) stAllMaxCoarse (fun _ => 0) 1).linkedToMaster =
      true ∧
    (phaseModeLinkedConfig (fun _ => 0) stAllMaxCoarse (fun _ => 0) 1).initialPhase =
      (4 - (1 : Fin 4).val) * 16383 :=
  claim2_phase_quadrature (fun _ => 0) stAllMaxCoarse (fun _ => 0) 1
    (by decide) (by decide) (by decide) (by decide)

/-- C5: on the Zoom/RandomWaveformSelect-to-Normal transition every
channel whose committed pot value differs from its stored coarse value by
more than 1024 enters catch-up; and while a channel is in catch-up, a pot
event in Normal mode leaves every coarse value unchanged when the event
value is at least 1024 away from the stored coarse value, and snaps the
coarse value exactly to the event value and clears the flag when the
event value is within (strictly less than) 1024 of it. -/
theorem claim5_catchup_entry_and_clear :
    (∀ (s : UiState) (i : Fin 4),
      |(s.potValue i : Int) - (s.potCoarseValue i : Int)| > kCatchupThreshold →
      ((gotoNormalModeWithCatchupAndSaving s).1.catchupState i = true ∧
       (gotoNormalModeWithCatchupAndSaving s).1.mode = UiMode.NORMAL ∧
       (gotoNormalModeWithCatchupAndSaving s).2 = true)) ∧
    (∀ (s : UiState) (i : Fin 4) (data : Nat),
      s.mode = UiMode.NORMAL → s.catchupState i = true →
      ((|(data : Int) - (s.potCoarseValue i : Int)| ≥ kCatchupThreshold →
         (onPotChanged s i data).potCoarseValue = s.potCoarseValue ∧
         (onPotChanged s i data).catchupState i = true) ∧
       (data < 65536 → |(data : Int) - (s.potCoarseValue i : Int)| < kCatchupThreshold →
         (onPotChanged s i data).potCoarseValue i = data ∧
         (onPotChanged s i data).catchupState i = false))) := by
  constructor
  · intro s i h
    unfold gotoNormalModeWithCatchupAndSaving
    exact ⟨by simp only; rw [if_pos h], rfl, rfl⟩
  · intro s i data hm hc
    constructor
    · intro hfar
      have hnot : ¬ (s.catchupState i = false) := by rw [hc]; simp
      have hnear : ¬ (|(data : Int) - (s.potCoarseValue i : Int)| < kCatchupThreshold) := by
        omega
      unfold onPotChanged
      rw [hm]
      rw [if_neg hnot, if_neg hnear]
      exact ⟨rfl, hc⟩
    · intro hdata hnear
      have hnot : ¬ (s.catchupState i = false) := by rw [hc]; simp
      unfold onPotChanged
      rw [hm]
      rw [if_neg hnot, if_pos hnear]
      constructor
      · show Function.update s.potCoarseValue i (data % 65536) i = data
        rw [Function.update_same]
        exact Nat.mod_eq_of_lt hdata
      · show Function.update s.catchupState i false i = false
        rw [Function.update_same]

theorem claim5_catchup_entry_and_clear_witness :
    ((gotoNormalModeWithCatchupAndSaving stCatch).1.catchupState 0 = true ∧
     (gotoNormalModeWithCatchupAndSaving stCatch).1.mode = UiMode.NORMAL ∧
     (gotoNormalModeWithCatchupAndSaving stCatch).2 = true) ∧
    ((onPotChanged stCatch 0 50000).potCoarseValue = stCatch.potCoarseValue ∧
     (onPotChanged stCatch 0 50000).catchupState 0 = true) ∧
    ((onPotChanged stCatch 0 30100).potCoarseValue 0 = 30100 ∧
     (onPotChanged stCatch 0 30100).catchupState 0 = false) :=
  ⟨claim5_catchup_entry_and_clear.1 stCatch 0 (by decide),
   (claim5_catchup_entry_and_clear.2 stCatch 0 50000 rfl (by decide)).1 (by decide),
   (claim5_catchup_entry_and_clear.2 stCatch 0 30100 rfl (by decide)).2 (by decide)
     (by decide)⟩

/-- C10: in Zoom mode a pot event with control id k writes only the
last-touched channel's fine (k = 0), level (k = 1), atten (k = 2) or
phase (k = 3) value; the mode, feature mode, every coarse value, catch-up
flag, bank, waveform index, and the last-touched-pot index itself are all
unchanged by the event. -/
theorem claim10_zoom_pot_event_frame (s : UiState) (k : Fin 4) (data : Nat)
    (hm : s.mode = UiMode.ZOOM) :
    (onPotChanged s k data).mode = s.mode ∧
    (onPotChanged s k data).featMode = s.featMode ∧
    (onPotChanged s k data).potValue = s.potValue ∧
    (onPotChanged s k data).potFilteredValue = s.potFilteredValue ∧
    (onPotChanged s k data).potCoarseValue = s.potCoarseValue ∧
    (onPotChanged s k data).catchupState = s.catchupState ∧
    (onPotChanged s k data).bank = s.bank ∧
    (onPotChanged s k data).randomWaveformIndex = s.randomWaveformIndex ∧
    (onPotChanged s k data).lastTouchedPot = s.lastTouchedPot ∧
    (onPotChanged s k data).potFineValue =
      (if k = 0 then Function.update s.potFineValue s.lastTouchedPot (data % 65536)
       else s.potFineValue) ∧
    (onPotChanged s k data).potLevelValue =
      (if k = 1 then Function.update s.potLevelValue s.lastTouchedPot (data % 65536)
       else s.potLevelValue) ∧
    (onPotChanged s k data).potAttenValue =
      (if k = 2 then Function.update s.potAttenValue s.lastTouchedPot (data % 65536)
       else s.potAttenValue) ∧
    (onPotChanged s k data).potPhaseValue =
      (if k = 3 then Function.update s.potPhaseValue s.lastTouchedPot (data % 65536)
       else s.potPhaseValue) := by
  unfold onPotChanged
  rw [hm]
  fin_cases k <;>
    refine ⟨rfl, rfl, rfl, rfl, rfl, rfl, rfl, rfl, rfl, ?_, ?_, ?_, ?_⟩ <;>
    simp

theorem claim10_zoom_pot_event_frame_witness :
    (onPotChanged stZoomSample 0 12345).bank = stZoomSample.bank ∧
    (onPotChanged stZoomSample 0 12345).lastTouchedPot = stZoomSample.lastTouchedPot ∧
    (onPotChanged stZoomSample 0 12345).potFineValue =
      Function.update stZoomSample.potFineValue stZoomSample.lastTouchedPot
        (12345 % 65536) := by
  obtain ⟨-, -, -, -, -, -, hbank, -, hlast, hfine, -, -, -⟩ :=
    claim10_zoom_pot_event_frame stZoomSample 0 12345 rfl
  refine ⟨hbank, hlast, ?_⟩
  rw [hfine]
  simp

end Batumi
